import Mathlib

/-!
Verification of the `geminimultilingual` translation flow.

Shallow embedding of:
  * `src/app/api/translate/route.ts` — the `POST /api/translate` handler;
  * `src/utils/gemini.ts` — `promptTemplate` and `translateText`;
  * `src/components/ui/LanguageSelectionModal.tsx` — `toggleLanguage` and
    the checkbox `disabled` condition;
  * `src/components/ui/FullscreenTextInput.tsx` — `handleSubmit`.

Modelling conventions:
  * JavaScript string length is modelled by `String.length` (characters);
  * the external generative model is an oracle: it either throws, or
    returns a raw text reply whose `JSON.parse` outcome we represent
    directly as `Option Json` (`none` = the reply is not valid JSON);
  * optional / possibly-missing fields of a parsed JSON request body are
    `Option`; a JS falsy check `!text` on a string field is
    `text = none ∨ text = some ""`;
  * a thrown JS exception is `Except.error`.
-/

namespace GeminiMultilingual

/-- JSON values, as produced by `JSON.parse`.  Numbers are modelled as
integers (the repository never inspects numeric leaves). -/
inductive Json where
  | null : Json
  | bool (b : Bool) : Json
  | num (n : Int) : Json
  | str (s : String) : Json
  | arr (elems : List Json) : Json
  | obj (fields : List (String × Json)) : Json
deriving Repr

/-- The shape the spec expects of a model reply: a flat mapping from
language-code string to translated-text string (every field value is a
JSON string).  Stated from the spec's words; `translateText` is compared
against it. -/
def Json.isFlatStringMap : Json → Bool
  | .obj fields => fields.all fun f =>
      match f.2 with
      | .str _ => true
      | _ => false
  | _ => false

/-- Key list of a JSON object (empty for non-objects). -/
def Json.keys : Json → List String
  | .obj fields => fields.map Prod.fst
  | _ => []

/-- Behaviour of one call to the external generative model:
`Except.error ()` — the transport / model call throws;
`Except.ok none` — the model returns text that `JSON.parse` rejects;
`Except.ok (some j)` — the model returns text that parses to `j`. -/
def ModelBehavior : Type := Except Unit (Option Json)

/-- One invocation of the Translation Client, recording the arguments the
handler forwarded and the single prompt sent to the external model. -/
structure ClientCall where
  text : String
  targetLanguages : List String
  prompt : String
deriving Repr

/-- `promptTemplate` from `src/utils/gemini.ts`: the template literal
`Translate the following text: "${userMessage}" into the following
languages: ${targetLanguages.join(", ")}. Provide the translations as a
JSON object with language codes as keys and translated texts as values.` -/
def promptTemplate (userMessage : String) (targetLanguages : List String) : String :=
  "Translate the following text: \"" ++ userMessage
    ++ "\" into the following languages: "
    ++ String.intercalate ", " targetLanguages
    ++ ". Provide the translations as a JSON object with language codes as keys and translated texts as values."

/-- `translateText` from `src/utils/gemini.ts`.  Builds the prompt, sends
exactly one message to the external model (the second component records
the calls issued), awaits the reply, runs `JSON.parse` on it, and returns
the parsed value; any throw from the model call or from `JSON.parse` is
caught and re-thrown as `Error("Translation failed")`. -/
def translateText (userMessage : String) (targetLanguages : List String)
    (model : ModelBehavior) : Except String Json × List ClientCall :=
  let prompt := promptTemplate userMessage targetLanguages
  let call : ClientCall := ⟨userMessage, targetLanguages, prompt⟩
  match model with
  | .error _ => (.error "Translation failed", [call])
  | .ok none => (.error "Translation failed", [call])
  | .ok (some j) => (.ok j, [call])

/-- The parsed fields of a `TranslateRequestBody`
(`interface TranslateRequestBody` in `src/app/api/translate/route.ts`);
a field absent from the posted JSON object is `none`. -/
structure TranslateRequestBody where
  text : Option String
  targetLanguages : Option (List String)

/-- The response the handler produces: `NextResponse.json` with either a
`translations` payload (status 200) or an `error` message (status 400 or
500). -/
inductive ApiResponse where
  | ok (translations : Json) : ApiResponse
  | badRequest (error : String) : ApiResponse
  | serverError (error : String) : ApiResponse
deriving Repr

/-- HTTP status code of an `ApiResponse`. -/
def ApiResponse.status : ApiResponse → Nat
  | .ok _ => 200
  | .badRequest _ => 400
  | .serverError _ => 500

/-- `POST` from `src/app/api/translate/route.ts`.  `body` is the outcome
of `await request.json()` (`none` = the body is not parseable JSON, so
`request.json()` throws and control reaches the outer `catch`).  Returns
the response together with the list of Translation Client invocations
made while handling the request. -/
def POST (body : Option TranslateRequestBody) (model : ModelBehavior) :
    ApiResponse × List ClientCall :=
  match body with
  | none =>
      (.serverError "An error occurred during translation.", [])
  | some b =>
      match b.text with
      | none =>
          (.badRequest "Text is required and must be up to 140 characters.", [])
      | some text =>
          if text == "" || text.length > 140 then
            (.badRequest "Text is required and must be up to 140 characters.", [])
          else
            match b.targetLanguages with
            | none => (.badRequest "Please select exactly 3 target languages.", [])
            | some targetLanguages =>
              if targetLanguages.length != 3 then
                (.badRequest "Please select exactly 3 target languages.", [])
              else
                match translateText text targetLanguages model with
                | (.ok j, calls) => (.ok j, calls)
                | (.error _, calls) =>
                    (.serverError "An error occurred during translation.", calls)

/-- `toggleLanguage` from `src/components/ui/LanguageSelectionModal.tsx`:
`prev.includes(code) ? prev.filter((c) => c !== code) : [...prev, code]`. -/
def toggleLanguage (prev : List String) (code : String) : List String :=
  if prev.contains code then prev.filter (fun c => c != code) else prev ++ [code]

/-- The checkbox `disabled` condition in `LanguageSelectionModal`:
`!selectedLanguages.includes(lang.code) && selectedLanguages.length >= 3`. -/
def checkboxDisabled (selectedLanguages : List String) (code : String) : Bool :=
  !selectedLanguages.contains code && selectedLanguages.length >= 3

/-- User interactions on the language-selection modal: toggling a
language checkbox, pressing Submit, and closing the modal (Cancel, or
the parent setting `isOpen` to false). -/
inductive ModalEvent where
  | toggle (code : String) : ModalEvent
  | submit : ModalEvent
  | close : ModalEvent

/-- One step of the `selectedLanguages` state of `LanguageSelectionModal`.
A toggle only fires `onChange` when the checkbox is enabled; Submit is
enabled (and `handleSubmit` acts) only when exactly 3 languages are
selected, and then closes the modal, whose `useEffect` resets the
selection to `[]`; Close resets the selection the same way. -/
def modalStep (selectedLanguages : List String) : ModalEvent → List String
  | .toggle code =>
      if checkboxDisabled selectedLanguages code then selectedLanguages
      else toggleLanguage selectedLanguages code
  | .submit =>
      if selectedLanguages.length == 3 then [] else selectedLanguages
  | .close => []

/-- The `selectedLanguages` state reached from the initial empty
selection after a sequence of user interactions. -/
def modalRun (events : List ModalEvent) : List String :=
  events.foldl modalStep []

/-- Whitespace as trimmed by `String.prototype.trim`, restricted to the
ASCII whitespace characters (modelled from the JS runtime; the claims
only use the ASCII subset). -/
def isJsWhitespace (c : Char) : Bool :=
  c == ' ' || c == '\t' || c == '\n' || c == '\r' || c == '\x0b' || c == '\x0c'

/-- `String.prototype.trim` (modelled from the JS runtime): drops leading
and trailing whitespace characters. -/
def jsTrim (s : String) : String :=
  ⟨((s.data.dropWhile isJsWhitespace).reverse.dropWhile isJsWhitespace).reverse⟩

/-- `handleSubmit` from `src/components/ui/FullscreenTextInput.tsx`:
`if (text.trim().length === 0 || text.length > 140) return;
onSubmit(text.trim());` — returns the text passed to `onSubmit`, or
`none` when the guard refuses the submission. -/
def handleSubmit (text : String) : Option String :=
  if (jsTrim text).length == 0 || text.length > 140 then none
  else some (jsTrim text)

/-! ## Helper lemmas -/

/-- A nonempty string has length at least 1. -/
theorem one_le_length_of_ne_empty (s : String) (h : s ≠ "") : 1 ≤ s.length := by
  rcases s with ⟨l⟩
  cases l with
  | nil => exact absurd rfl h
  | cons a as => simp [String.length]

/-- The two boolean guards of the text-validation rule are false for a
nonempty text of at most 140 characters. -/
theorem text_guard_false (text : String) (h0 : text ≠ "") (h140 : text.length ≤ 140) :
    (text == "" || decide (text.length > 140)) = false := by
  simp [h0, Nat.not_lt.mpr h140]

/-! ## Claim theorems -/

/-- C10: a request whose body is not parseable JSON gets status 500 with
the generic error body — not a 400 validation error — and the Translation
Client is never invoked, because `request.json()` throws into the same
catch-all as downstream translation failures. -/
theorem post_unparseable_body_server_error (m : ModelBehavior) :
    POST none m = (.serverError "An error occurred during translation.", []) ∧
    (POST none m).1.status = 500 :=
  ⟨rfl, rfl⟩

/-- C2: whenever the text field is missing, empty, or longer than 140
characters — whatever `targetLanguages` holds — the handler returns 400
with the `InvalidText` body and never invokes the Translation Client; the
text rule short-circuits ahead of the language-count rule. -/
theorem post_invalid_text_rejects (t : Option String) (tl : Option (List String))
    (m : ModelBehavior)
    (h : t = none ∨ t = some "" ∨ ∃ s, t = some s ∧ s.length > 140) :
    POST (some ⟨t, tl⟩) m =
      (.badRequest "Text is required and must be up to 140 characters.", []) ∧
    (POST (some ⟨t, tl⟩) m).1.status = 400 := by
  rcases h with rfl | rfl | ⟨s, rfl, hs⟩
  · exact ⟨rfl, rfl⟩
  · exact ⟨rfl, rfl⟩
  · constructor
    · simp [POST, hs]
    · simp [POST, hs, ApiResponse.status]

theorem post_invalid_text_rejects_witness :
    POST (some ⟨none, some ["es", "fr", "de"]⟩) (.error ()) =
      (.badRequest "Text is required and must be up to 140 characters.", []) ∧
    (POST (some ⟨none, some ["es", "fr", "de"]⟩) (.error ())).1.status = 400 :=
  post_invalid_text_rejects none (some ["es", "fr", "de"]) (.error ()) (Or.inl rfl)

/-- C3 (counterexample): with an empty text and an empty language list —
`targetLanguages` has length 0 ≠ 3 — the handler does NOT return the
language-count error: the text rule fires first, so the claim as stated
(for every body with `targetLanguages` invalid, the language-count error
is returned) is false. -/
theorem post_lang_count_counterexample :
    (POST (some ⟨some "", some []⟩) (.error ())).1 =
      .badRequest "Text is required and must be up to 140 characters." ∧
    ¬ ((POST (some ⟨some "", some []⟩) (.error ())).1 =
      .badRequest "Please select exactly 3 target languages.") := by
  refine ⟨rfl, fun h => ?_⟩
  rw [show (POST (some ⟨some "", some []⟩) (.error ())).1 =
      .badRequest "Text is required and must be up to 140 characters." from rfl] at h
  exact absurd (ApiResponse.badRequest.inj h) (by decide)

/-- C3 (amended): for every body whose text passes the text rule
(present, nonempty, at most 140 characters) and whose `targetLanguages`
is missing or of length different from 3, the handler returns 400 with
the language-count error body and never invokes the Translation
Client. -/
theorem post_lang_count_rejects (text : String) (tl : Option (List String))
    (m : ModelBehavior)
    (h0 : text ≠ "") (h140 : text.length ≤ 140)
    (htl : tl = none ∨ ∃ ls, tl = some ls ∧ ls.length ≠ 3) :
    POST (some ⟨some text, tl⟩) m =
      (.badRequest "Please select exactly 3 target languages.", []) ∧
    (POST (some ⟨some text, tl⟩) m).1.status = 400 := by
  rcases htl with rfl | ⟨ls, rfl, hls⟩
  · constructor
    · simp [POST, text_guard_false text h0 h140]
    · simp [POST, text_guard_false text h0 h140, ApiResponse.status]
  · constructor
    · simp [POST, text_guard_false text h0 h140, hls]
    · simp [POST, text_guard_false text h0 h140, hls, ApiResponse.status]

theorem post_lang_count_rejects_witness :
    POST (some ⟨some "hi", some ["es"]⟩) (.error ()) =
      (.badRequest "Please select exactly 3 target languages.", []) ∧
    (POST (some ⟨some "hi", some ["es"]⟩) (.error ())).1.status = 400 :=
  post_lang_count_rejects "hi" (some ["es"]) (.error ()) (by decide) (by decide)
    (Or.inr ⟨["es"], rfl, by decide⟩)

/-- C5: whenever the Translation Client fails — the model call throws or
its reply is not parseable JSON — the handler returns status 500 with
exactly the generic body `error: An error occurred during translation.`,
exposing nothing of the underlying cause; both failure modes collapse to
the same response. -/
theorem post_client_failure_server_error (text : String) (langs : List String)
    (m : ModelBehavior)
    (h0 : text ≠ "") (h140 : text.length ≤ 140) (hl : langs.length = 3)
    (hm : m = .error () ∨ m = .ok none) :
    POST (some ⟨some text, some langs⟩) m =
      (.serverError "An error occurred during translation.",
        [⟨text, langs, promptTemplate text langs⟩]) ∧
    (POST (some ⟨some text, some langs⟩) m).1.status = 500 := by
  rcases hm with rfl | rfl <;>
    exact ⟨by simp [POST, text_guard_false text h0 h140, hl, translateText],
           by simp [POST, text_guard_false text h0 h140, hl, translateText,
                    ApiResponse.status]⟩

theorem post_client_failure_server_error_witness :
    POST (some ⟨some "hi", some ["es", "fr", "de"]⟩) (.ok none) =
      (.serverError "An error occurred during translation.",
        [⟨"hi", ["es", "fr", "de"], promptTemplate "hi" ["es", "fr", "de"]⟩]) ∧
    (POST (some ⟨some "hi", some ["es", "fr", "de"]⟩) (.ok none)).1.status = 500 :=
  post_client_failure_server_error "hi" ["es", "fr", "de"] (.ok none)
    (by decide) (by decide) (by decide) (Or.inr rfl)

/-- C1: for every body with text of length 1..140 and exactly 3 distinct
target language codes, assuming the external model replies with a JSON
object whose keys are exactly the requested codes, the handler invokes
the Translation Client exactly once and returns status 200 with
`translations` equal to that object, whose key list is exactly the 3
requested codes. -/
theorem post_valid_success (text : String) (langs : List String)
    (fields : List (String × Json)) (m : ModelBehavior)
    (h0 : text ≠ "") (h140 : text.length ≤ 140)
    (hl : langs.length = 3) (_hnd : langs.Nodup)
    (hm : m = .ok (some (.obj fields)))
    (hk : fields.map Prod.fst = langs) :
    (POST (some ⟨some text, some langs⟩) m).2 =
      [⟨text, langs, promptTemplate text langs⟩] ∧
    (POST (some ⟨some text, some langs⟩) m).1 = .ok (.obj fields) ∧
    (POST (some ⟨some text, some langs⟩) m).1.status = 200 ∧
    (Json.obj fields).keys = langs := by
  subst hm
  refine ⟨?_, ?_, ?_, ?_⟩
  · simp [POST, text_guard_false text h0 h140, hl, translateText]
  · simp [POST, text_guard_false text h0 h140, hl, translateText]
  · simp [POST, text_guard_false text h0 h140, hl, translateText, ApiResponse.status]
  · simpa [Json.keys] using hk

theorem post_valid_success_witness :
    (POST (some ⟨some "Hello World", some ["es", "fr", "de"]⟩)
        (.ok (some (.obj [("es", .str "Hola Mundo"), ("fr", .str "Bonjour le monde"),
          ("de", .str "Hallo Welt")])))).2 =
      [⟨"Hello World", ["es", "fr", "de"], promptTemplate "Hello World" ["es", "fr", "de"]⟩] ∧
    (POST (some ⟨some "Hello World", some ["es", "fr", "de"]⟩)
        (.ok (some (.obj [("es", .str "Hola Mundo"), ("fr", .str "Bonjour le monde"),
          ("de", .str "Hallo Welt")])))).1 =
      .ok (.obj [("es", .str "Hola Mundo"), ("fr", .str "Bonjour le monde"),
        ("de", .str "Hallo Welt")]) ∧
    (POST (some ⟨some "Hello World", some ["es", "fr", "de"]⟩)
        (.ok (some (.obj [("es", .str "Hola Mundo"), ("fr", .str "Bonjour le monde"),
          ("de", .str "Hallo Welt")])))).1.status = 200 ∧
    (Json.obj [("es", .str "Hola Mundo"), ("fr", .str "Bonjour le monde"),
      ("de", .str "Hallo Welt")]).keys = ["es", "fr", "de"] :=
  post_valid_success "Hello World" ["es", "fr", "de"]
    [("es", .str "Hola Mundo"), ("fr", .str "Bonjour le monde"), ("de", .str "Hallo Welt")]
    (.ok (some (.obj [("es", .str "Hola Mundo"), ("fr", .str "Bonjour le monde"),
      ("de", .str "Hallo Welt")])))
    (by decide) (by decide) (by decide) (by decide) rfl rfl

/-- C4 (counterexample): a reply that parses as the JSON number 5 — not
a flat string-to-string mapping — is NOT rejected by `translateText`: the
parsed value is returned as a success, so the claim that every
JSON-parsing reply of the wrong shape is rejected is false. -/
theorem translate_shape_counterexample :
    (Json.num 5).isFlatStringMap = false ∧
    (translateText "hi" ["es", "fr", "de"] (.ok (some (.num 5)))).1 = .ok (.num 5) :=
  ⟨rfl, rfl⟩

/-- C4 (amended): `translateText` fails with the `Translation failed`
error exactly when the model call throws or the reply fails JSON
parsing; every reply that parses as JSON — whatever its shape — is
returned as the result without any shape validation. -/
theorem translate_parse_only (text : String) (langs : List String) :
    (translateText text langs (.error ())).1 = .error "Translation failed" ∧
    (translateText text langs (.ok none)).1 = .error "Translation failed" ∧
    ∀ j : Json, (translateText text langs (.ok (some j))).1 = .ok j :=
  ⟨rfl, rfl, fun _ => rfl⟩

/-- C6 (counterexample): the body with text `hi` and language list
`es, es, es` passes validation and is forwarded to the Translation
Client even though its 3 codes are not pairwise distinct, so the
distinctness part of the claim is false. -/
theorem post_forwards_distinct_counterexample :
    (POST (some ⟨some "hi", some ["es", "es", "es"]⟩) (.error ())).2 =
      [⟨"hi", ["es", "es", "es"], promptTemplate "hi" ["es", "es", "es"]⟩] ∧
    ¬ (["es", "es", "es"] : List String).Nodup :=
  ⟨rfl, by decide⟩

/-- C6 (amended): every `TranslationRequest` the handler forwards to the
Translation Client has text of 1..140 characters and a `targetLanguages`
list of exactly 3 codes (the handler checks only the count, not
distinctness). -/
theorem post_forwarded_validated (body : Option TranslateRequestBody)
    (m : ModelBehavior) (c : ClientCall) (hc : c ∈ (POST body m).2) :
    1 ≤ c.text.length ∧ c.text.length ≤ 140 ∧ c.targetLanguages.length = 3 := by
  match body with
  | none => simp [POST] at hc
  | some ⟨none, tl⟩ => simp [POST] at hc
  | some ⟨some text, tl⟩ =>
    simp only [POST] at hc
    by_cases hguard : (text == "" || decide (text.length > 140)) = true
    · simp [hguard] at hc
    · rw [Bool.not_eq_true] at hguard
      rw [hguard] at hc
      simp only [Bool.false_eq_true, if_false] at hc
      match tl with
      | none => simp at hc
      | some langs =>
        by_cases hn : (langs.length != 3) = true
        · simp [hn] at hc
        · rw [Bool.not_eq_true] at hn
          simp only [hn, Bool.false_eq_true, if_false] at hc
          have hcall : c = ⟨text, langs, promptTemplate text langs⟩ := by
            rcases hm : m with _ | _ | j <;>
              simp [translateText, hm] at hc <;> simp [hc]
          have h0 : text ≠ "" := by
            intro h
            rw [h] at hguard
            simp at hguard
          have h140 : text.length ≤ 140 := by
            rcases Bool.or_eq_false_iff.mp hguard with ⟨_, h2⟩
            simpa using of_decide_eq_false h2
          have hlen : langs.length = 3 := by
            simpa using hn
          subst hcall
          exact ⟨one_le_length_of_ne_empty text h0, h140, hlen⟩

theorem post_forwarded_validated_witness :
    1 ≤ ("hi" : String).length ∧ ("hi" : String).length ≤ 140 ∧
      (["es", "fr", "de"] : List String).length = 3 :=
  post_forwarded_validated (some ⟨some "hi", some ["es", "fr", "de"]⟩) (.error ())
    ⟨"hi", ["es", "fr", "de"], promptTemplate "hi" ["es", "fr", "de"]⟩
    (by rw [show (POST (some ⟨some "hi", some ["es", "fr", "de"]⟩) (.error ())).2 =
        [⟨"hi", ["es", "fr", "de"], promptTemplate "hi" ["es", "fr", "de"]⟩] from rfl]
        exact List.mem_singleton_self _)

/-- C8: for every text and language list, `translateText` issues exactly
one request to the external model per call — also when the call fails,
so there is no retry — and the single prompt embeds the source text
verbatim between double quotes and the language codes joined by the
fixed delimiter `, `. -/
theorem translate_single_prompt (text : String) (langs : List String)
    (m : ModelBehavior) :
    (translateText text langs m).2 =
      [⟨text, langs,
        "Translate the following text: \"" ++ text
          ++ "\" into the following languages: "
          ++ String.intercalate ", " langs
          ++ ". Provide the translations as a JSON object with language codes as keys and translated texts as values."⟩] := by
  rcases m with _ | _ | j <;> rfl

/-- One modal interaction cannot push the selection above 3 members. -/
theorem modalStep_length_le (sel : List String) (e : ModalEvent)
    (h : sel.length ≤ 3) : (modalStep sel e).length ≤ 3 := by
  cases e with
  | toggle code =>
    simp only [modalStep]
    by_cases hd : checkboxDisabled sel code = true
    · simpa [hd] using h
    · rw [Bool.not_eq_true] at hd
      simp only [hd, Bool.false_eq_true, if_false, toggleLanguage]
      by_cases hcon : sel.contains code = true
      · simp only [hcon, if_true]
        exact le_trans (List.length_filter_le _ _) h
      · rw [Bool.not_eq_true] at hcon
        simp only [hcon, Bool.false_eq_true, if_false, List.length_append,
          List.length_singleton]
        have hlt : sel.length < 3 := by
          simp only [checkboxDisabled, hcon, Bool.not_false, Bool.true_and] at hd
          exact Nat.lt_of_not_le (of_decide_eq_false hd)
        omega
  | submit =>
    simp only [modalStep]
    by_cases h3 : (sel.length == 3) = true
    · simp [h3]
    · rw [Bool.not_eq_true] at h3
      simpa [h3] using h
  | close => simp [modalStep]

/-- C7: from the initial empty selection, every state of the modal's
selected-languages list reachable by toggling enabled checkboxes,
submitting and closing has at most 3 members; and toggling a 4th,
not-yet-selected language while 3 are selected leaves the selection
unchanged (its checkbox is disabled). -/
theorem modal_selection_capped :
    (∀ events : List ModalEvent, (modalRun events).length ≤ 3) ∧
    (∀ (sel : List String) (code : String), sel.length = 3 →
      sel.contains code = false → modalStep sel (.toggle code) = sel) := by
  constructor
  · intro events
    suffices h : ∀ sel : List String, sel.length ≤ 3 →
        (events.foldl modalStep sel).length ≤ 3 from h [] (by decide)
    induction events with
    | nil => intro sel h; simpa using h
    | cons e es ih =>
      intro sel h
      exact ih _ (modalStep_length_le sel e h)
  · intro sel code hlen hcon
    have hnot : ¬ code ∈ sel := by simpa using hcon
    simp [modalStep, checkboxDisabled, hcon, hlen, hnot]

theorem modal_selection_capped_witness :
    (modalRun [.toggle "es", .toggle "fr", .toggle "de", .toggle "en"]).length ≤ 3 ∧
    modalStep ["es", "fr", "de"] (.toggle "en") = ["es", "fr", "de"] :=
  ⟨modal_selection_capped.1 [.toggle "es", .toggle "fr", .toggle "de", .toggle "en"],
   modal_selection_capped.2 ["es", "fr", "de"] "en" (by decide) (by decide)⟩

/-- C9: a text of 1..140 characters consisting only of whitespace passes
the server-side validation — the handler does not return the
`InvalidText` error and forwards the text to the Translation Client —
while the client-side form refuses to submit it, because `handleSubmit`
checks the trimmed length and the server never trims. -/
theorem whitespace_text_server_accepts (text : String) (langs : List String)
    (m : ModelBehavior)
    (h0 : text ≠ "") (h140 : text.length ≤ 140)
    (hws : ∀ c ∈ text.data, isJsWhitespace c = true)
    (hl : langs.length = 3) :
    (POST (some ⟨some text, some langs⟩) m).1 ≠
      .badRequest "Text is required and must be up to 140 characters." ∧
    (POST (some ⟨some text, some langs⟩) m).2 =
      [⟨text, langs, promptTemplate text langs⟩] ∧
    handleSubmit text = none := by
  have htrim : jsTrim text = "" := by
    have hnil : text.data.dropWhile isJsWhitespace = [] :=
      List.dropWhile_eq_nil_iff.mpr hws
    simp [jsTrim, hnil]
  refine ⟨?_, ?_, ?_⟩
  · rcases m with _ | o
    · simp [POST, text_guard_false text h0 h140, hl, translateText]
    · rcases o with _ | j <;>
        simp [POST, text_guard_false text h0 h140, hl, translateText]
  · rcases m with _ | o
    · simp [POST, text_guard_false text h0 h140, hl, translateText]
    · rcases o with _ | j <;>
        simp [POST, text_guard_false text h0 h140, hl, translateText]
  · simp [handleSubmit, htrim]

theorem whitespace_text_server_accepts_witness :
    (POST (some ⟨some "   ", some ["es", "fr", "de"]⟩) (.error ())).1 ≠
      .badRequest "Text is required and must be up to 140 characters." ∧
    (POST (some ⟨some "   ", some ["es", "fr", "de"]⟩) (.error ())).2 =
      [⟨"   ", ["es", "fr", "de"], promptTemplate "   " ["es", "fr", "de"]⟩] ∧
    handleSubmit "   " = none :=
  whitespace_text_server_accepts "   " ["es", "fr", "de"] (.error ())
    (by decide) (by decide) (by decide) (by decide)

end GeminiMultilingual
